import Mathlib

/-!
Shallow embedding of the online-bookstore application
(`models.py` and `app.py`) and verification of its specification.

Modelling conventions:
* Python `float` prices and money amounts are modelled as exact rationals `ℚ`
  (the spec speaks of percentages of the total, not of IEEE rounding).
* Python `int` quantities are modelled as `Int`.
* `request.form.get(k)` yields `Option String` (`none` = absent field);
  Python truthiness of such a value is `truthy` below.
* Python dictionaries keyed by strings (cart items, user store, order store)
  are association lists `List (String × _)` in insertion order; mutating an
  existing key updates the first (and, for lists built by the operations,
  only) matching entry, and inserting a fresh key appends.
* Sources of nondeterminism (the `random.randint` transaction number, the
  `uuid` order id, `datetime.now()`) are passed as explicit parameters.
* The `time.sleep(0.1)` delay, console printing of `EmailService`, and the
  unused `User.temp_data` / `User.cache` fields have no functional effect
  and are not modelled.
-/

namespace Bookstore

/-- Python truthiness of an `Optional[str]` form value:
`None` and the empty string are falsy. -/
def truthy : Option String → Bool
  | none => false
  | some s => !s.isEmpty

/-- Python `s.endswith(t)`: `t` is a suffix of `s` (modelled over the
character lists; true when `t` is empty, false when `t` is longer than `s`). -/
def strEndsWith (s t : String) : Bool :=
  t.length ≤ s.length && (s.data.drop (s.length - t.length)) == t.data

/-- Source class `Book` of `models.py`: title, category, price, image. -/
structure Book where
  title : String
  category : String
  price : ℚ
  image : String
deriving DecidableEq, Repr

/-- Source class `CartItem` of `models.py`: a book together with a quantity. -/
structure CartItem where
  book : Book
  quantity : Int
deriving DecidableEq, Repr

/-- Method `CartItem.get_total_price`: the price of the book times the quantity. -/
def CartItem.get_total_price (it : CartItem) : ℚ :=
  it.book.price * (it.quantity : ℚ)

/-- Source class `Cart` of `models.py`: the field `items` is a dict keyed by book title,
modelled as an association list in insertion order. -/
structure Cart where
  items : List (String × CartItem)
deriving DecidableEq, Repr

/-- Update the first entry of an association list whose key is `key`
(dictionary single-slot mutation `d[key] = f d[key]`). -/
def updateEntry (key : String) (f : CartItem → CartItem) :
    List (String × CartItem) → List (String × CartItem)
  | [] => []
  | p :: rest =>
      if p.1 = key then (p.1, f p.2) :: rest
      else p :: updateEntry key f rest

/-- Method `Cart.add_book`: increment the quantity of an existing entry,
otherwise insert a new `CartItem` (dict insertion appends). -/
def Cart.add_book (c : Cart) (book : Book) (quantity : Int) : Cart :=
  if c.items.any (fun p => p.1 == book.title) then
    ⟨updateEntry book.title (fun it => { it with quantity := it.quantity + quantity }) c.items⟩
  else
    ⟨c.items ++ [(book.title, ⟨book, quantity⟩)]⟩

/-- Method `Cart.remove_book`: delete the entry if the title is a key. -/
def Cart.remove_book (c : Cart) (book_title : String) : Cart :=
  if c.items.any (fun p => p.1 == book_title) then
    ⟨c.items.filter (fun p => !(p.1 == book_title))⟩
  else c

/-- Method `Cart.update_quantity`: if the title is a key, set that entry's
quantity verbatim; otherwise do nothing. -/
def Cart.update_quantity (c : Cart) (book_title : String) (quantity : Int) : Cart :=
  if c.items.any (fun p => p.1 == book_title) then
    ⟨updateEntry book_title (fun it => { it with quantity := quantity }) c.items⟩
  else c

/-- Method `Cart.get_total_price`: the source iterates `for i in range(item.quantity)`
adding `item.book.price` each time (an empty range for non-positive
quantities), accumulating over all items. -/
def Cart.get_total_price (c : Cart) : ℚ :=
  c.items.foldl
    (fun total p => (List.range p.2.quantity.toNat).foldl (fun t _ => t + p.2.book.price) total)
    0

/-- Method `Cart.get_total_items`: sum of quantities. -/
def Cart.get_total_items (c : Cart) : Int :=
  (c.items.map (fun p => p.2.quantity)).sum

/-- Method `Cart.clear`: reset to an empty dict. -/
def Cart.clear (_c : Cart) : Cart := ⟨[]⟩

/-- Method `Cart.get_items`: the list of `CartItem` values. -/
def Cart.get_items (c : Cart) : List CartItem :=
  c.items.map (fun p => p.2)

/-- Method `Cart.is_empty`: whether the item dict has length zero. -/
def Cart.is_empty (c : Cart) : Bool :=
  c.items.length == 0

/-- Dictionary access `cart.items[title].quantity` (as used by the tests),
`none` when the title is not a key. -/
def Cart.quantityOf (c : Cart) (title : String) : Option Int :=
  (c.items.find? (fun p => p.1 == title)).map (fun p => p.2.quantity)

/-- The shipping-info dict built in `process_checkout` from the five
shipping form fields. -/
structure ShippingInfo where
  name : Option String
  email : Option String
  address : Option String
  city : Option String
  zip_code : Option String
deriving DecidableEq, Repr

/-- Dictionary access `shipping_info.get(field)` for the field names used in the
`required_fields` loop. -/
def ShippingInfo.get (s : ShippingInfo) : String → Option String
  | "name" => s.name
  | "email" => s.email
  | "address" => s.address
  | "city" => s.city
  | "zip_code" => s.zip_code
  | _ => none

/-- The payment-info dict built in `process_checkout` from the form. -/
structure PaymentInfo where
  payment_method : Option String
  card_number : Option String
  expiry_date : Option String
  cvv : Option String
deriving DecidableEq, Repr

/-- The result dict of `PaymentGateway.process_payment`. -/
structure PaymentResult where
  success : Bool
  message : String
  transaction_id : Option String
deriving DecidableEq, Repr

/-- Source method `PaymentGateway.process_payment` of `models.py`.  The value drawn from
`random.randint(100000, 999999)` for the transaction number is passed in
explicitly as `rand`.

The `payment_info` dict built by the checkout handler always carries the
`card_number` key, holding `None` (here `none`) when the form omitted the
field.  Python `payment_info.get` then returns that stored `None` — its
default applies only to a missing key — and the `endswith` call on `None`
raises `AttributeError`, so the method returns no result dict at all.
That exception path is the `Except.error` branch. -/
def PaymentGateway.process_payment (payment_info : PaymentInfo) (rand : Nat) :
    Except String PaymentResult :=
  match payment_info.card_number with
  | none => .error "AttributeError"
  | some card_number =>
      if strEndsWith card_number "1111" then
        .ok { success := false
              message := "Payment failed: Invalid card number"
              transaction_id := none }
      else
        .ok { success := true
              message := "Payment processed successfully"
              transaction_id := some ("TXN" ++ toString rand) }

/-- Source class `Order` of `models.py`: immutable snapshot built at checkout completion.
The `payment_info` dict stored on the order has keys `method` and
`transaction_id`; `order_date` (`datetime.now()`) is an abstract timestamp. -/
structure Order where
  order_id : String
  user_email : Option String
  items : List CartItem
  shipping_info : ShippingInfo
  payment_method : Option String
  transaction_id : Option String
  total_amount : ℚ
  order_date : Nat
  status : String
deriving DecidableEq, Repr

/-- Source class `User` of `models.py` (the unused `temp_data`/`cache` fields are omitted). -/
structure User where
  email : String
  password : String
  name : String
  address : String
  orders : List Order
deriving DecidableEq, Repr

/-- Method `User.add_order`: append, then re-sort the history by order date
(Python `list.sort` is stable; `mergeSort` is its stable counterpart). -/
def User.add_order (u : User) (o : Order) : User :=
  { u with orders := (u.orders ++ [o]).mergeSort (fun a b => a.order_date ≤ b.order_date) }

/-- The process-wide mutable state of `app.py`: the shared cart, the
`users` and `orders` dictionaries, and the session's logged-in email. -/
structure StoreState where
  cart : Cart
  users : List (String × User)
  orders : List (String × Order)
  session_user : Option String
deriving DecidableEq, Repr

/-- The raw checkout form (`request.form` fields read by `process_checkout`);
the discount code field defaults to the empty string when absent. -/
structure CheckoutForm where
  name : Option String
  email : Option String
  address : Option String
  city : Option String
  zip_code : Option String
  payment_method : Option String
  card_number : Option String
  expiry_date : Option String
  cvv : Option String
  discount_code : Option String
deriving DecidableEq, Repr

/-- The observable steps of the checkout pipeline, recorded in the order
the handler executes them. -/
inductive Event where
  | emptyCartCheck
  | discountComputation
  | shippingValidation
  | cardValidation
  | gatewayCall
deriving DecidableEq, Repr

/-- The flash messages `process_checkout` can emit (abstracting the exact
interpolated strings). -/
inductive FlashMsg where
  | cartEmpty
  | discountApplied (saved : ℚ)
  | welcomeDiscountApplied (saved : ℚ)
  | invalidDiscountCode
  | fillField (field : String)
  | fillCardDetails
  | paymentFailed (message : String)
  | paymentSuccessful
deriving DecidableEq, Repr

/-- Where `process_checkout` ends up: a redirect, or an unhandled
`AttributeError` from the gateway (HTTP 500, no redirect rendered). -/
inductive CheckoutOutcome where
  | redirectIndexEmptyCart
  | redirectCheckoutMissingField (field : String)
  | redirectCheckoutMissingCard
  | redirectCheckoutPaymentFailed
  | redirectConfirmation (order_id : String)
  | serverError
deriving DecidableEq, Repr

/-- Everything observable about one `process_checkout` request: the
redirect taken, the executed pipeline steps in order, the flash messages,
the final values of the handler's `discount_applied` and `total_amount`
variables (0 on the empty-cart path, where they are never computed), the
created order if any, and the store state after the request. -/
structure CheckoutResult where
  outcome : CheckoutOutcome
  trace : List Event
  flashes : List FlashMsg
  discount_applied : ℚ
  total_amount : ℚ
  order : Option Order
  state : StoreState
deriving DecidableEq, Repr

/-- The `required_fields` list of `process_checkout`. -/
def required_fields : List String :=
  ["name", "email", "address", "city", "zip_code"]

/-- The discount block of `process_checkout` (executed before the field
validations, as in the source): returns the final `discount_applied`,
the final `total_amount`, and the flash it emits, from the discount code
and the cart total.  `0.10` and `0.20` are the source's percentages. -/
def computeDiscount (code : String) (total : ℚ) : ℚ × ℚ × List FlashMsg :=
  if code = "SAVE10" then
    let d := total * (1/10 : ℚ)
    (d, total - d, [.discountApplied d])
  else if code = "WELCOME20" then
    let d := total * (2/10 : ℚ)
    (d, total - d, [.welcomeDiscountApplied d])
  else if code ≠ "" then
    (0, total, [.invalidDiscountCode])
  else
    (0, total, [])

/-- Update the first user entry with the given key. -/
def updateUser (key : String) (f : User → User) :
    List (String × User) → List (String × User)
  | [] => []
  | p :: rest =>
      if p.1 = key then (p.1, f p.2) :: rest
      else p :: updateUser key f rest

/-- The `shipping_info` dict built by `process_checkout` from the form. -/
def CheckoutForm.shipping_info (form : CheckoutForm) : ShippingInfo :=
  ⟨form.name, form.email, form.address, form.city, form.zip_code⟩

/-- The `payment_info` dict built by `process_checkout` from the form. -/
def CheckoutForm.payment_info (form : CheckoutForm) : PaymentInfo :=
  ⟨form.payment_method, form.card_number, form.expiry_date, form.cvv⟩

/-- The `Order` built by `process_checkout` on payment success, from the
gateway's returned result dict `pr`. -/
def mkCheckoutOrder (st : StoreState) (form : CheckoutForm)
    (pr : PaymentResult) (oid : String) (now : Nat) : Order :=
  { order_id := oid
    user_email := form.shipping_info.email
    items := st.cart.get_items
    shipping_info := form.shipping_info
    payment_method := form.payment_info.payment_method
    transaction_id := pr.transaction_id
    total_amount := (computeDiscount (form.discount_code.getD "") st.cart.get_total_price).2.1
    order_date := now
    status := "Confirmed" }

/-- Handler `process_checkout` of `app.py`.  Nondeterministic inputs are explicit:
`rand` is the gateway's random transaction number, `oid` the generated
order id (assumed fresh), `now` the order timestamp.  The handler's local
variables (`shipping_info`, `payment_info`, the discount block's
`discount_applied`/`total_amount`, `order`) are the pure expressions
`form.shipping_info`, `form.payment_info`, `computeDiscount …`,
`mkCheckoutOrder …`, written out at each use site; `payment_result` is the
result dict matched out of the gateway call, and an `AttributeError`
raised inside the gateway propagates out of the handler as `serverError`
before any store mutation. -/
def process_checkout (st : StoreState) (form : CheckoutForm)
    (rand : Nat) (oid : String) (now : Nat) : CheckoutResult :=
  if st.cart.is_empty then
    { outcome := .redirectIndexEmptyCart
      trace := [.emptyCartCheck]
      flashes := [.cartEmpty]
      discount_applied := 0
      total_amount := 0
      order := none
      state := st }
  else
    -- the discount block runs before the field validations in the source
    match required_fields.find? (fun f => !truthy (form.shipping_info.get f)) with
    | some f =>
        { outcome := .redirectCheckoutMissingField f
          trace := [.emptyCartCheck, .discountComputation, .shippingValidation]
          flashes := (computeDiscount (form.discount_code.getD "") st.cart.get_total_price).2.2
            ++ [.fillField f]
          discount_applied :=
            (computeDiscount (form.discount_code.getD "") st.cart.get_total_price).1
          total_amount :=
            (computeDiscount (form.discount_code.getD "") st.cart.get_total_price).2.1
          order := none
          state := st }
    | none =>
        if form.payment_info.payment_method = some "credit_card" ∧
            (!truthy form.payment_info.card_number || !truthy form.payment_info.expiry_date ||
              !truthy form.payment_info.cvv) = true then
          { outcome := .redirectCheckoutMissingCard
            trace := [.emptyCartCheck, .discountComputation, .shippingValidation, .cardValidation]
            flashes := (computeDiscount (form.discount_code.getD "") st.cart.get_total_price).2.2
              ++ [.fillCardDetails]
            discount_applied :=
              (computeDiscount (form.discount_code.getD "") st.cart.get_total_price).1
            total_amount :=
              (computeDiscount (form.discount_code.getD "") st.cart.get_total_price).2.1
            order := none
            state := st }
        else
          match PaymentGateway.process_payment form.payment_info rand with
          | .error _ =>
              -- the gateway's AttributeError propagates: the request dies
              -- with a server error before any store mutation; the flashes
              -- queued so far (the discount flash) stay in the session
              { outcome := .serverError
                trace := [.emptyCartCheck, .discountComputation, .shippingValidation,
                  .cardValidation, .gatewayCall]
                flashes := (computeDiscount (form.discount_code.getD "") st.cart.get_total_price).2.2
                discount_applied :=
                  (computeDiscount (form.discount_code.getD "") st.cart.get_total_price).1
                total_amount :=
                  (computeDiscount (form.discount_code.getD "") st.cart.get_total_price).2.1
                order := none
                state := st }
          | .ok payment_result =>
              if payment_result.success = false then
                { outcome := .redirectCheckoutPaymentFailed
                  trace := [.emptyCartCheck, .discountComputation, .shippingValidation,
                    .cardValidation, .gatewayCall]
                  flashes := (computeDiscount (form.discount_code.getD "") st.cart.get_total_price).2.2
                    ++ [.paymentFailed payment_result.message]
                  discount_applied :=
                    (computeDiscount (form.discount_code.getD "") st.cart.get_total_price).1
                  total_amount :=
                    (computeDiscount (form.discount_code.getD "") st.cart.get_total_price).2.1
                  order := none
                  state := st }
              else
                { outcome := .redirectConfirmation oid
                  trace := [.emptyCartCheck, .discountComputation, .shippingValidation,
                    .cardValidation, .gatewayCall]
                  flashes := (computeDiscount (form.discount_code.getD "") st.cart.get_total_price).2.2
                    ++ [.paymentSuccessful]
                  discount_applied :=
                    (computeDiscount (form.discount_code.getD "") st.cart.get_total_price).1
                  total_amount :=
                    (computeDiscount (form.discount_code.getD "") st.cart.get_total_price).2.1
                  order := some (mkCheckoutOrder st form payment_result oid now)
                  state := { st with
                    cart := st.cart.clear
                    users :=
                      match st.session_user with
                      | some e =>
                          if st.users.any (fun p => p.1 == e) then
                            updateUser e
                              (fun u => u.add_order (mkCheckoutOrder st form payment_result oid now))
                              st.users
                          else st.users
                      | none => st.users
                    orders := st.orders ++ [(oid, mkCheckoutOrder st form payment_result oid now)] } }

/-- Outcome of the `register` POST handler. -/
inductive RegisterOutcome where
  | missingRequiredFields
  | emailExists
  | created
deriving DecidableEq, Repr

/-- Observable result of a `register` POST: outcome, users store after the
request, and the session's logged-in email after the request. -/
structure RegisterResult where
  outcome : RegisterOutcome
  users : List (String × User)
  session_user : Option String
deriving DecidableEq, Repr

/-- Handler `register` of `app.py` (POST branch).  The address field
defaults to the empty string; the other fields are plain
`request.form.get`. -/
def register (users : List (String × User)) (session_user : Option String)
    (email password name address : Option String) : RegisterResult :=
  if !truthy email || !truthy password || !truthy name then
    { outcome := .missingRequiredFields, users := users, session_user := session_user }
  else if users.any (fun p => p.1 == email.getD "") then
    { outcome := .emailExists, users := users, session_user := session_user }
  else
    { outcome := .created
      users := users ++ [(email.getD "",
        ⟨email.getD "", password.getD "", name.getD "", address.getD "", []⟩)]
      session_user := some (email.getD "") }

/-! ### Helper lemmas about the cart's dictionary operations -/

lemma updateEntry_length (key : String) (f : CartItem → CartItem)
    (l : List (String × CartItem)) : (updateEntry key f l).length = l.length := by
  induction l with
  | nil => rfl
  | cons hd tl ih =>
      unfold updateEntry
      by_cases h : hd.1 = key <;> simp [h, ih]

lemma updateEntry_find? (key : String) (f : CartItem → CartItem)
    (l : List (String × CartItem)) :
    (updateEntry key f l).find? (fun p => p.1 == key) =
      (l.find? (fun p => p.1 == key)).map (fun p => (p.1, f p.2)) := by
  induction l with
  | nil => rfl
  | cons hd tl ih =>
      unfold updateEntry
      by_cases h : hd.1 = key
      · rw [if_pos h]
        rw [List.find?_cons_of_pos _ (by simp [h]), List.find?_cons_of_pos _ (by simp [h])]
        rfl
      · rw [if_neg h]
        rw [List.find?_cons_of_neg _ (by simp [h]), List.find?_cons_of_neg _ (by simp [h]), ih]

lemma updateEntry_append_left (key : String) (f : CartItem → CartItem)
    (l1 l2 : List (String × CartItem))
    (h : l1.any (fun p => p.1 == key) = false) :
    updateEntry key f (l1 ++ l2) = l1 ++ updateEntry key f l2 := by
  induction l1 with
  | nil => rfl
  | cons hd tl ih =>
      simp only [List.any_cons, Bool.or_eq_false_iff] at h
      simp only [List.cons_append, updateEntry]
      rw [if_neg (by simpa using h.1)]
      exact congrArg (hd :: ·) (ih h.2)

lemma range_foldl_const_add (p : ℚ) (n : Nat) (init : ℚ) :
    (List.range n).foldl (fun t _ => t + p) init = init + n * p := by
  induction n with
  | zero => simp
  | succ k ih =>
      rw [List.range_succ, List.foldl_append, ih]
      push_cast
      ring_nf
      simp [add_mul, add_assoc]

lemma get_total_price_foldl (l : List (String × CartItem)) (init : ℚ) :
    l.foldl
        (fun total p =>
          (List.range p.2.quantity.toNat).foldl (fun t _ => t + p.2.book.price) total)
        init
      = init + (l.map (fun p => p.2.book.price * (p.2.quantity.toNat : ℚ))).sum := by
  induction l generalizing init with
  | nil => simp
  | cons hd tl ih =>
      rw [List.foldl_cons, ih, range_foldl_const_add]
      simp only [List.map_cons, List.sum_cons]
      ring

/-! ### Claim theorems: payment gateway and cart -/

/-- C2 counterexample: when the `card_number` key holds `None` (as the
checkout handler stores for an absent form field, e.g. a paypal checkout
with no card field), `process_payment` raises `AttributeError` and
returns no result dict at all — in particular not the successful result
with a transaction id that the claim asserts for every card number not
ending in `"1111"`. -/
theorem process_payment_none_card_counterexample :
    PaymentGateway.process_payment ⟨some "paypal", none, none, none⟩ 0
      = Except.error "AttributeError" ∧
    (PaymentGateway.process_payment ⟨some "paypal", none, none, none⟩ 0).toOption = none ∧
    (Except.error "AttributeError" : Except String PaymentResult) ≠
      Except.ok { success := true, message := "Payment processed successfully",
                  transaction_id := some ("TXN" ++ toString 0) } := by
  exact ⟨rfl, rfl, by simp⟩

/-- C2 amended: when the `card_number` value is an actual string,
`process_payment` fails exactly when it ends in `"1111"` (returning
`success = false` with a null transaction id) and otherwise returns
`success = true` with a transaction id; when the stored `card_number`
value is `None` the call raises `AttributeError` and returns no result. -/
theorem process_payment_fails_iff_card_ends_1111
    (info : PaymentInfo) (rand : Nat) :
    (∀ s : String, info.card_number = some s →
      if strEndsWith s "1111" then
        PaymentGateway.process_payment info rand =
          .ok { success := false, message := "Payment failed: Invalid card number",
                transaction_id := none }
      else
        PaymentGateway.process_payment info rand =
          .ok { success := true, message := "Payment processed successfully",
                transaction_id := some ("TXN" ++ toString rand) }) ∧
    (info.card_number = none →
      PaymentGateway.process_payment info rand = .error "AttributeError") := by
  constructor
  · intro s hs
    unfold PaymentGateway.process_payment
    rw [hs]
    by_cases h : strEndsWith s "1111" <;> simp [h]
  · intro hn
    unfold PaymentGateway.process_payment
    rw [hn]

/-- Witness for the amended C2 theorem: a concrete failing card, a
concrete succeeding card, and a concrete `None` card. -/
theorem process_payment_fails_iff_card_ends_1111_witness :
    PaymentGateway.process_payment ⟨some "credit_card", some "123456781111",
        some "12/25", some "123"⟩ 5
      = .ok { success := false, message := "Payment failed: Invalid card number",
              transaction_id := none } ∧
    PaymentGateway.process_payment ⟨some "credit_card", some "4242",
        some "12/25", some "123"⟩ 5
      = .ok { success := true, message := "Payment processed successfully",
              transaction_id := some ("TXN" ++ toString 5) } ∧
    PaymentGateway.process_payment ⟨some "paypal", none, none, none⟩ 5
      = .error "AttributeError" := by
  refine ⟨?_, ?_, ?_⟩
  · have h := (process_payment_fails_iff_card_ends_1111
      ⟨some "credit_card", some "123456781111", some "12/25", some "123"⟩ 5).1
      "123456781111" rfl
    rw [if_pos (by decide)] at h
    exact h
  · have h := (process_payment_fails_iff_card_ends_1111
      ⟨some "credit_card", some "4242", some "12/25", some "123"⟩ 5).1 "4242" rfl
    rw [if_neg (by decide)] at h
    exact h
  · exact (process_payment_fails_iff_card_ends_1111
      ⟨some "paypal", none, none, none⟩ 5).2 rfl

/-- C6 counterexample: two invocations of the payment gateway on the same
payment info return different results (the random transaction number
differs), so `process_payment` is not a pure function of its payment-info
argument alone. -/
theorem process_payment_not_pure_counterexample :
    PaymentGateway.process_payment
        ⟨some "credit_card", some "4242424242424242", some "12/25", some "123"⟩ 100000
      ≠
    PaymentGateway.process_payment
        ⟨some "credit_card", some "4242424242424242", some "12/25", some "123"⟩ 100001 :=
  fun h => absurd (congrArg Except.toOption h) (by decide)

/-- C6 amended: across any two invocations of
`PaymentGateway.process_payment` on the same payment info, whether a
result dict is returned at all (versus an `AttributeError`), its `success`
flag and its `message` agree, and both the `None`-card exception branch
and the `"1111"` failure branch are fully deterministic; only the
successful transaction id depends on the freshly drawn random number. -/
theorem process_payment_success_and_message_pure
    (info : PaymentInfo) (r1 r2 : Nat) :
    ((PaymentGateway.process_payment info r1).toOption.map PaymentResult.success =
      (PaymentGateway.process_payment info r2).toOption.map PaymentResult.success) ∧
    ((PaymentGateway.process_payment info r1).toOption.map PaymentResult.message =
      (PaymentGateway.process_payment info r2).toOption.map PaymentResult.message) ∧
    (info.card_number = none →
      PaymentGateway.process_payment info r1 = PaymentGateway.process_payment info r2) ∧
    (∀ s : String, info.card_number = some s → strEndsWith s "1111" = true →
      PaymentGateway.process_payment info r1 = PaymentGateway.process_payment info r2) := by
  unfold PaymentGateway.process_payment
  match hc : info.card_number with
  | none => simp
  | some s =>
      by_cases h : strEndsWith s "1111" <;> simp [h, Except.toOption]

/-- Witness for the amended C6 theorem at a concrete failing card and a
concrete `None` card. -/
theorem process_payment_success_and_message_pure_witness :
    strEndsWith "41111" "1111" = true ∧
    PaymentGateway.process_payment ⟨none, some "41111", none, none⟩ 3 =
      PaymentGateway.process_payment ⟨none, some "41111", none, none⟩ 4 ∧
    PaymentGateway.process_payment ⟨some "paypal", none, none, none⟩ 3 =
      PaymentGateway.process_payment ⟨some "paypal", none, none, none⟩ 4 :=
  ⟨by decide,
   (process_payment_success_and_message_pure ⟨none, some "41111", none, none⟩ 3 4).2.2.2
     "41111" rfl (by decide),
   (process_payment_success_and_message_pure ⟨some "paypal", none, none, none⟩ 3 4).2.2.1
     rfl⟩

/-- C3: for carts whose quantities are all non-negative,
`Cart.get_total_price` is the sum over entries of price × quantity. -/
theorem get_total_price_eq_sum_price_mul_quantity
    (c : Cart) (h : ∀ p ∈ c.items, 0 ≤ p.2.quantity) :
    c.get_total_price =
      (c.items.map (fun p => p.2.book.price * (p.2.quantity : ℚ))).sum := by
  unfold Cart.get_total_price
  rw [get_total_price_foldl, zero_add]
  refine congrArg List.sum (List.map_congr_left ?_)
  intro p hp
  congr 1
  exact_mod_cast congrArg (fun z : ℤ => (z : ℚ)) (Int.toNat_of_nonneg (h p hp))

/-- Witness for C3 at a concrete two-item cart. -/
theorem get_total_price_eq_sum_price_mul_quantity_witness :
    (∀ p ∈ (Cart.mk [("A", ⟨⟨"A", "f", 3, "i"⟩, 2⟩), ("B", ⟨⟨"B", "f", 5, "i"⟩, 1⟩)]).items,
        0 ≤ p.2.quantity) ∧
    (Cart.mk [("A", ⟨⟨"A", "f", 3, "i"⟩, 2⟩), ("B", ⟨⟨"B", "f", 5, "i"⟩, 1⟩)]).get_total_price =
      ((Cart.mk [("A", ⟨⟨"A", "f", 3, "i"⟩, 2⟩), ("B", ⟨⟨"B", "f", 5, "i"⟩, 1⟩)]).items.map
        (fun p => p.2.book.price * (p.2.quantity : ℚ))).sum :=
  ⟨by decide,
   get_total_price_eq_sum_price_mul_quantity
     ⟨[("A", ⟨⟨"A", "f", 3, "i"⟩, 2⟩), ("B", ⟨⟨"B", "f", 5, "i"⟩, 1⟩)]⟩ (by decide)⟩

/-- C7: on a cart containing an entry for the title, `update_quantity`
with 0 sets that entry's quantity to 0, keeps the entry present (with the
same book), and does not change the number of entries. -/
theorem update_quantity_zero_keeps_entry
    (c : Cart) (title : String)
    (h : c.items.any (fun p => p.1 == title) = true) :
    ((c.update_quantity title 0).items.find? (fun p => p.1 == title)).isSome = true ∧
    (c.update_quantity title 0).items.find? (fun p => p.1 == title) =
      (c.items.find? (fun p => p.1 == title)).map
        (fun p => (p.1, { p.2 with quantity := 0 })) ∧
    (c.update_quantity title 0).items.length = c.items.length := by
  unfold Cart.update_quantity
  rw [if_pos h]
  refine ⟨?_, updateEntry_find? .., updateEntry_length ..⟩
  rw [updateEntry_find?]
  rcases List.any_eq_true.mp h with ⟨p, hp, hpt⟩
  have : (c.items.find? (fun p => p.1 == title)).isSome = true :=
    List.find?_isSome.mpr ⟨p, hp, hpt⟩
  rcases Option.isSome_iff_exists.mp this with ⟨q, hq⟩
  simp [hq]

/-- Witness for C7 at a concrete one-item cart. -/
theorem update_quantity_zero_keeps_entry_witness :
    ((Cart.mk [("A", ⟨⟨"A", "f", 3, "i"⟩, 2⟩)]).items.any (fun p => p.1 == "A") = true) ∧
    (((Cart.mk [("A", ⟨⟨"A", "f", 3, "i"⟩, 2⟩)]).update_quantity "A" 0).items.find?
        (fun p => p.1 == "A")).isSome = true :=
  ⟨by decide,
   (update_quantity_zero_keeps_entry ⟨[("A", ⟨⟨"A", "f", 3, "i"⟩, 2⟩)]⟩ "A" (by decide)).1⟩

/-- C8 counterexample: on a cart that already holds 5 copies of the title,
adding quantity 1 twice leaves quantity 7, not 1 + 1 = 2, so the claim is
false for carts that already contain an entry for the title. -/
theorem add_book_twice_counterexample :
    (((Cart.mk [("T", ⟨⟨"T", "f", 1, "i"⟩, 5⟩)]).add_book ⟨"T", "f", 1, "i"⟩ 1).add_book
        ⟨"T", "f", 1, "i"⟩ 1).quantityOf "T" = some 7 ∧ (7 : Int) ≠ 1 + 1 := by
  decide

/-- C8 amended: on a cart with no existing entry for the book's title,
adding quantity q and then quantity q2 under the same title leaves an
entry for that title with total quantity q + q2. -/
theorem add_book_twice_accumulates
    (c : Cart) (b b2 : Book) (q q2 : Int)
    (ht : b2.title = b.title)
    (h : c.items.any (fun p => p.1 == b.title) = false) :
    ((c.add_book b q).add_book b2 q2).quantityOf b.title = some (q + q2) := by
  have h1 : c.add_book b q = ⟨c.items ++ [(b.title, ⟨b, q⟩)]⟩ := by
    unfold Cart.add_book
    rw [if_neg (by simp [h])]
  have hany : ((Cart.mk (c.items ++ [(b.title, ⟨b, q⟩)])).items.any
      (fun p => p.1 == b2.title)) = true :=
    List.any_eq_true.mpr ⟨(b.title, ⟨b, q⟩), by simp, by simp [ht]⟩
  have h2 : (Cart.mk (c.items ++ [(b.title, ⟨b, q⟩)])).add_book b2 q2 =
      ⟨updateEntry b2.title (fun it => { it with quantity := it.quantity + q2 })
        (c.items ++ [(b.title, ⟨b, q⟩)])⟩ := by
    unfold Cart.add_book
    rw [if_pos hany]
  rw [h1, h2]
  unfold Cart.quantityOf
  have h3 : updateEntry b2.title (fun it => { it with quantity := it.quantity + q2 })
      (c.items ++ [(b.title, ⟨b, q⟩)]) =
      c.items ++ [(b.title, ⟨b, q + q2⟩)] := by
    rw [ht, updateEntry_append_left _ _ _ _ h]
    simp [updateEntry]
  rw [h3]
  have hnone : c.items.find? (fun p => p.1 == b.title) = none := by
    rw [List.find?_eq_none]
    intro x hx hxe
    have hx2 : c.items.any (fun p => p.1 == b.title) = true :=
      List.any_eq_true.mpr ⟨x, hx, hxe⟩
    rw [h] at hx2
    exact Bool.false_ne_true hx2
  rw [List.find?_append, hnone]
  simp

/-- Witness for the amended C8 theorem: adding 2 then 3 of a fresh title
yields quantity 5. -/
theorem add_book_twice_accumulates_witness :
    (((Cart.mk []).add_book ⟨"T", "f", 1, "i"⟩ 2).add_book
        ⟨"T", "f", 1, "i"⟩ 3).quantityOf "T" = some (2 + 3) :=
  add_book_twice_accumulates ⟨[]⟩ ⟨"T", "f", 1, "i"⟩ ⟨"T", "f", 1, "i"⟩ 2 3 rfl (by decide)

/-- C10: on a cart with no entry for the title, `remove_book` and
`update_quantity` return the cart unchanged (no error, no new entry). -/
theorem remove_and_update_absent_title_frame
    (c : Cart) (title : String) (q : Int)
    (h : c.items.any (fun p => p.1 == title) = false) :
    c.remove_book title = c ∧ c.update_quantity title q = c := by
  unfold Cart.remove_book Cart.update_quantity
  rw [if_neg (by simp [h]), if_neg (by simp [h])]
  exact ⟨rfl, rfl⟩

/-- Witness for C10 at a concrete cart holding a different title. -/
theorem remove_and_update_absent_title_frame_witness :
    (Cart.mk [("A", ⟨⟨"A", "f", 3, "i"⟩, 2⟩)]).remove_book "B" =
        Cart.mk [("A", ⟨⟨"A", "f", 3, "i"⟩, 2⟩)] ∧
    (Cart.mk [("A", ⟨⟨"A", "f", 3, "i"⟩, 2⟩)]).update_quantity "B" 9 =
        Cart.mk [("A", ⟨⟨"A", "f", 3, "i"⟩, 2⟩)] :=
  remove_and_update_absent_title_frame ⟨[("A", ⟨⟨"A", "f", 3, "i"⟩, 2⟩)]⟩ "B" 9 (by decide)

/-! ### Helper lemmas about the checkout pipeline -/

/-- The full order in which the handler's steps occur in the source. -/
def checkoutPipelineOrder : List Event :=
  [.emptyCartCheck, .discountComputation, .shippingValidation, .cardValidation, .gatewayCall]

lemma process_checkout_trace_take (st : StoreState) (form : CheckoutForm)
    (rand : Nat) (oid : String) (now : Nat) :
    (process_checkout st form rand oid now).trace =
      checkoutPipelineOrder.take (process_checkout st form rand oid now).trace.length := by
  unfold process_checkout
  repeat' split
  all_goals rfl

lemma process_checkout_discount_fields (st : StoreState) (form : CheckoutForm)
    (rand : Nat) (oid : String) (now : Nat)
    (h : st.cart.is_empty = false) :
    (process_checkout st form rand oid now).discount_applied =
      (computeDiscount (form.discount_code.getD "") st.cart.get_total_price).1 ∧
    (process_checkout st form rand oid now).total_amount =
      (computeDiscount (form.discount_code.getD "") st.cart.get_total_price).2.1 ∧
    (∃ tail, (process_checkout st form rand oid now).flashes =
      (computeDiscount (form.discount_code.getD "") st.cart.get_total_price).2.2 ++ tail) ∧
    (∀ o : Order, (process_checkout st form rand oid now).order = some o →
      o.total_amount =
        (computeDiscount (form.discount_code.getD "") st.cart.get_total_price).2.1) := by
  unfold process_checkout
  rw [if_neg (by simp [h])]
  repeat' split
  all_goals
    refine ⟨rfl, rfl, ?_, fun o ho => by
      first
        | exact Option.noConfusion ho
        | (cases ho; rfl)⟩
  all_goals
    first
      | exact ⟨_, rfl⟩
      | exact ⟨[], (List.append_nil _).symm⟩

lemma process_checkout_gateway_not_called_on_validation_failure
    (st : StoreState) (form : CheckoutForm) (rand : Nat) (oid : String) (now : Nat) :
    ((∃ f, (process_checkout st form rand oid now).outcome =
        .redirectCheckoutMissingField f) ∨
     (process_checkout st form rand oid now).outcome = .redirectCheckoutMissingCard) →
    Event.gatewayCall ∉ (process_checkout st form rand oid now).trace := by
  unfold process_checkout
  repeat' split
  all_goals rintro (⟨f, hf⟩ | hc)
  all_goals
    first
      | exact CheckoutOutcome.noConfusion hf
      | exact CheckoutOutcome.noConfusion hc
      | simp

/-! ### Claim theorems: checkout pipeline -/

/-- C1 counterexample: a concrete checkout request with a non-empty cart,
the valid code `"SAVE10"`, and a missing shipping name fails shipping
validation, yet the discount has already been computed (10% of the 10.00
total, i.e. 1) and flashed, and in the executed step order the discount
computation precedes shipping validation.  So validation does not happen
before discount computation, and a request that fails validation does
apply a discount. -/
theorem checkout_discount_precedes_validation_counterexample :
    (process_checkout
        ⟨⟨[("B", ⟨⟨"B", "Fiction", 10, "/images/b.jpg"⟩, 1⟩)]⟩, [], [], none⟩
        ⟨none, some "e@x.com", some "1 Road", some "Town", some "12345",
          some "credit_card", some "4242", some "12/25", some "123", some "SAVE10"⟩
        0 "OID" 0).outcome = CheckoutOutcome.redirectCheckoutMissingField "name" ∧
    (process_checkout
        ⟨⟨[("B", ⟨⟨"B", "Fiction", 10, "/images/b.jpg"⟩, 1⟩)]⟩, [], [], none⟩
        ⟨none, some "e@x.com", some "1 Road", some "Town", some "12345",
          some "credit_card", some "4242", some "12/25", some "123", some "SAVE10"⟩
        0 "OID" 0).trace =
      [Event.emptyCartCheck, Event.discountComputation, Event.shippingValidation] ∧
    (process_checkout
        ⟨⟨[("B", ⟨⟨"B", "Fiction", 10, "/images/b.jpg"⟩, 1⟩)]⟩, [], [], none⟩
        ⟨none, some "e@x.com", some "1 Road", some "Town", some "12345",
          some "credit_card", some "4242", some "12/25", some "123", some "SAVE10"⟩
        0 "OID" 0).discount_applied = 1 ∧
    FlashMsg.discountApplied 1 ∈ (process_checkout
        ⟨⟨[("B", ⟨⟨"B", "Fiction", 10, "/images/b.jpg"⟩, 1⟩)]⟩, [], [], none⟩
        ⟨none, some "e@x.com", some "1 Road", some "Town", some "12345",
          some "credit_card", some "4242", some "12/25", some "123", some "SAVE10"⟩
        0 "OID" 0).flashes ∧
    (1 : ℚ) ≠ 0 := by
  obtain ⟨hd, -, hfl, -⟩ := process_checkout_discount_fields
    ⟨⟨[("B", ⟨⟨"B", "Fiction", 10, "/images/b.jpg"⟩, 1⟩)]⟩, [], [], none⟩
    ⟨none, some "e@x.com", some "1 Road", some "Town", some "12345",
      some "credit_card", some "4242", some "12/25", some "123", some "SAVE10"⟩
    0 "OID" 0 rfl
  have htot : (Cart.mk [("B", ⟨⟨"B", "Fiction", 10, "/images/b.jpg"⟩, 1⟩)]).get_total_price
      = 10 := by
    unfold Cart.get_total_price
    rw [get_total_price_foldl]
    norm_num
  refine ⟨by decide, by decide, ?_, ?_, by norm_num⟩
  · rw [hd, htot]
    norm_num [computeDiscount]
  · obtain ⟨last, hl⟩ := hfl
    rw [hl, htot]
    norm_num [computeDiscount]

/-- C1 amended: the checkout steps do occur in a fixed short-circuiting
order and the empty-cart check is first, but the source's order is:
empty-cart check, then discount computation, then shipping-field
validation, then card-field validation, then the gateway call (the
executed trace is always an initial segment of this order).  A request that fails
shipping or card validation never reaches the payment gateway, but its
discount has already been computed and flashed. -/
theorem checkout_pipeline_order_amended (st : StoreState) (form : CheckoutForm)
    (rand : Nat) (oid : String) (now : Nat) :
    ((process_checkout st form rand oid now).trace =
      checkoutPipelineOrder.take (process_checkout st form rand oid now).trace.length) ∧
    (∀ f, (process_checkout st form rand oid now).outcome =
        CheckoutOutcome.redirectCheckoutMissingField f →
      Event.gatewayCall ∉ (process_checkout st form rand oid now).trace) ∧
    ((process_checkout st form rand oid now).outcome =
        CheckoutOutcome.redirectCheckoutMissingCard →
      Event.gatewayCall ∉ (process_checkout st form rand oid now).trace) ∧
    (st.cart.is_empty = false →
      (process_checkout st form rand oid now).discount_applied =
        (computeDiscount (form.discount_code.getD "") st.cart.get_total_price).1) := by
  refine ⟨process_checkout_trace_take st form rand oid now, ?_, ?_, ?_⟩
  · intro f hf
    exact process_checkout_gateway_not_called_on_validation_failure st form rand oid now
      (Or.inl ⟨f, hf⟩)
  · intro hc
    exact process_checkout_gateway_not_called_on_validation_failure st form rand oid now
      (Or.inr hc)
  · intro h
    exact (process_checkout_discount_fields st form rand oid now h).1

/-- Witness for the amended C1 theorem at the concrete request of the
counterexample (missing shipping name). -/
theorem checkout_pipeline_order_amended_witness :
    (process_checkout
        ⟨⟨[("W", ⟨⟨"W", "Fiction", 10, "/images/w.jpg"⟩, 1⟩)]⟩, [], [], none⟩
        ⟨none, some "e@x.com", some "1 Road", some "Town", some "12345",
          some "credit_card", some "4242", some "12/25", some "123", none⟩
        0 "OID" 0).outcome = CheckoutOutcome.redirectCheckoutMissingField "name" ∧
    Event.gatewayCall ∉ (process_checkout
        ⟨⟨[("W", ⟨⟨"W", "Fiction", 10, "/images/w.jpg"⟩, 1⟩)]⟩, [], [], none⟩
        ⟨none, some "e@x.com", some "1 Road", some "Town", some "12345",
          some "credit_card", some "4242", some "12/25", some "123", none⟩
        0 "OID" 0).trace :=
  ⟨by decide,
   (checkout_pipeline_order_amended
      ⟨⟨[("W", ⟨⟨"W", "Fiction", 10, "/images/w.jpg"⟩, 1⟩)]⟩, [], [], none⟩
      ⟨none, some "e@x.com", some "1 Road", some "Town", some "12345",
        some "credit_card", some "4242", some "12/25", some "123", none⟩
      0 "OID" 0).2.1 "name" (by decide)⟩

/-- C4: a checkout request on an empty cart is rejected with the
empty-cart error, executes only the empty-cart check (in particular the
payment gateway is never invoked), creates no order, and leaves the whole
store state unchanged. -/
theorem checkout_empty_cart_rejected (st : StoreState) (form : CheckoutForm)
    (rand : Nat) (oid : String) (now : Nat)
    (h : st.cart.is_empty = true) :
    (process_checkout st form rand oid now).outcome =
        CheckoutOutcome.redirectIndexEmptyCart ∧
    (process_checkout st form rand oid now).flashes = [FlashMsg.cartEmpty] ∧
    (process_checkout st form rand oid now).trace = [Event.emptyCartCheck] ∧
    Event.gatewayCall ∉ (process_checkout st form rand oid now).trace ∧
    (process_checkout st form rand oid now).order = none ∧
    (process_checkout st form rand oid now).state = st := by
  unfold process_checkout
  rw [if_pos h]
  refine ⟨rfl, rfl, rfl, ?_, rfl, rfl⟩
  simp

/-- Witness for C4 at a concrete empty store. -/
theorem checkout_empty_cart_rejected_witness :
    (Cart.mk []).is_empty = true ∧
    (process_checkout ⟨⟨[]⟩, [], [], none⟩
        ⟨some "n", some "e", some "a", some "c", some "z",
          some "credit_card", some "4242", some "12/25", some "123", some "SAVE10"⟩
        7 "OID" 3).outcome = CheckoutOutcome.redirectIndexEmptyCart ∧
    (process_checkout ⟨⟨[]⟩, [], [], none⟩
        ⟨some "n", some "e", some "a", some "c", some "z",
          some "credit_card", some "4242", some "12/25", some "123", some "SAVE10"⟩
        7 "OID" 3).state = ⟨⟨[]⟩, [], [], none⟩ :=
  ⟨rfl,
   (checkout_empty_cart_rejected ⟨⟨[]⟩, [], [], none⟩
      ⟨some "n", some "e", some "a", some "c", some "z",
        some "credit_card", some "4242", some "12/25", some "123", some "SAVE10"⟩
      7 "OID" 3 rfl).1,
   (checkout_empty_cart_rejected ⟨⟨[]⟩, [], [], none⟩
      ⟨some "n", some "e", some "a", some "c", some "z",
        some "credit_card", some "4242", some "12/25", some "123", some "SAVE10"⟩
      7 "OID" 3 rfl).2.2.2.2.2⟩

/-- C5: discount-code matching is a case-sensitive exact string match on a
non-empty cart: `"SAVE10"` sets the discount to 10% of the cart total and
reduces the checkout total (and any created order's total) by that amount,
while `"save10"` is flashed as an invalid code and applies no discount. -/
theorem discount_code_case_sensitive (st : StoreState) (form : CheckoutForm)
    (rand : Nat) (oid : String) (now : Nat)
    (h : st.cart.is_empty = false) :
    (form.discount_code = some "SAVE10" →
      (process_checkout st form rand oid now).discount_applied =
          st.cart.get_total_price * (1/10 : ℚ) ∧
      (process_checkout st form rand oid now).total_amount =
          st.cart.get_total_price - st.cart.get_total_price * (1/10 : ℚ) ∧
      FlashMsg.discountApplied (st.cart.get_total_price * (1/10 : ℚ)) ∈
          (process_checkout st form rand oid now).flashes ∧
      (∀ o : Order, (process_checkout st form rand oid now).order = some o →
        o.total_amount =
          st.cart.get_total_price - st.cart.get_total_price * (1/10 : ℚ))) ∧
    (form.discount_code = some "save10" →
      (process_checkout st form rand oid now).discount_applied = 0 ∧
      (process_checkout st form rand oid now).total_amount = st.cart.get_total_price ∧
      FlashMsg.invalidDiscountCode ∈ (process_checkout st form rand oid now).flashes) := by
  obtain ⟨hd, ht, hf, ho⟩ := process_checkout_discount_fields st form rand oid now h
  constructor
  · intro hs
    rw [hs] at hd ht hf ho
    have hc : computeDiscount ((some "SAVE10").getD "") st.cart.get_total_price =
        (st.cart.get_total_price * (1/10 : ℚ),
         st.cart.get_total_price - st.cart.get_total_price * (1/10 : ℚ),
         [.discountApplied (st.cart.get_total_price * (1/10 : ℚ))]) := by
      simp [computeDiscount]
    rw [hc] at hd ht hf ho
    obtain ⟨last, hl⟩ := hf
    exact ⟨hd, ht, by rw [hl]; simp, ho⟩
  · intro hs
    rw [hs] at hd ht hf
    have hc : computeDiscount ((some "save10").getD "") st.cart.get_total_price =
        (0, st.cart.get_total_price, [.invalidDiscountCode]) := by
      simp [computeDiscount]
    rw [hc] at hd ht hf
    obtain ⟨last, hl⟩ := hf
    exact ⟨hd, ht, by rw [hl]; simp⟩

/-- Witness for C5 at a concrete one-book cart with code `"save10"`. -/
theorem discount_code_case_sensitive_witness :
    (Cart.mk [("B", ⟨⟨"B", "Fiction", 10, "/images/b.jpg"⟩, 1⟩)]).is_empty = false ∧
    FlashMsg.invalidDiscountCode ∈ (process_checkout
        ⟨⟨[("B", ⟨⟨"B", "Fiction", 10, "/images/b.jpg"⟩, 1⟩)]⟩, [], [], none⟩
        ⟨some "n", some "e@x.com", some "1 Road", some "Town", some "12345",
          some "credit_card", some "4242", some "12/25", some "123", some "save10"⟩
        0 "OID" 0).flashes :=
  ⟨rfl,
   ((discount_code_case_sensitive
      ⟨⟨[("B", ⟨⟨"B", "Fiction", 10, "/images/b.jpg"⟩, 1⟩)]⟩, [], [], none⟩
      ⟨some "n", some "e@x.com", some "1 Road", some "Town", some "12345",
        some "credit_card", some "4242", some "12/25", some "123", some "save10"⟩
      0 "OID" 0 rfl).2 rfl).2.2⟩

/-! ### Claim theorems: registration -/

/-- C9: registration rejects only exact-case duplicate emails.
Concretely, registering `"a@b.com"` and then `"A@b.com"` both succeed and
leave two distinct user records; in general, a register request with valid
fields whose email is already a key (exact case) is rejected with
`emailExists` and changes nothing, while one whose email is not an
exact-case key succeeds and appends a new record. -/
theorem register_rejects_only_exact_case_duplicates :
    ((register [] none (some "a@b.com") (some "pw") (some "Alice") none).outcome
        = RegisterOutcome.created ∧
      (register (register [] none (some "a@b.com") (some "pw") (some "Alice") none).users
          none (some "A@b.com") (some "pw2") (some "Bob") none).outcome
        = RegisterOutcome.created ∧
      (register (register [] none (some "a@b.com") (some "pw") (some "Alice") none).users
          none (some "A@b.com") (some "pw2") (some "Bob") none).users.map Prod.fst
        = ["a@b.com", "A@b.com"]) ∧
    (∀ (us : List (String × User)) (su email password pname addr : Option String),
      truthy email = true → truthy password = true → truthy pname = true →
      us.any (fun p => p.1 == email.getD "") = true →
      (register us su email password pname addr).outcome = RegisterOutcome.emailExists ∧
      (register us su email password pname addr).users = us) ∧
    (∀ (us : List (String × User)) (su email password pname addr : Option String),
      truthy email = true → truthy password = true → truthy pname = true →
      us.any (fun p => p.1 == email.getD "") = false →
      (register us su email password pname addr).outcome = RegisterOutcome.created ∧
      (register us su email password pname addr).users.map Prod.fst
        = us.map Prod.fst ++ [email.getD ""]) := by
  refine ⟨⟨by decide, by decide, by decide⟩, ?_, ?_⟩
  · intro us su email password pname addr h1 h2 h3 h4
    unfold register
    rw [if_neg (by simp [h1, h2, h3]), if_pos h4]
    exact ⟨rfl, rfl⟩
  · intro us su email password pname addr h1 h2 h3 h4
    unfold register
    rw [if_neg (by simp [h1, h2, h3]), if_neg (by simp [h4])]
    exact ⟨rfl, by simp⟩

/-- Witness for C9: a duplicate registration with identical case is
rejected and leaves the user store unchanged. -/
theorem register_rejects_only_exact_case_duplicates_witness :
    truthy (some "x@y.z") = true ∧
    (register [("x@y.z", ⟨"x@y.z", "p", "n", "", []⟩)] none
        (some "x@y.z") (some "p2") (some "n2") none).outcome
      = RegisterOutcome.emailExists ∧
    (register [("x@y.z", ⟨"x@y.z", "p", "n", "", []⟩)] none
        (some "x@y.z") (some "p2") (some "n2") none).users
      = [("x@y.z", ⟨"x@y.z", "p", "n", "", []⟩)] :=
  ⟨by decide,
   (register_rejects_only_exact_case_duplicates.2.1
      [("x@y.z", ⟨"x@y.z", "p", "n", "", []⟩)] none
      (some "x@y.z") (some "p2") (some "n2") none
      (by decide) (by decide) (by decide) (by decide)).1,
   (register_rejects_only_exact_case_duplicates.2.1
      [("x@y.z", ⟨"x@y.z", "p", "n", "", []⟩)] none
      (some "x@y.z") (some "p2") (some "n2") none
      (by decide) (by decide) (by decide) (by decide)).2⟩

end Bookstore
